/-
Verification development for the gravity simulator.

Shallow embedding of the physics state and per-frame operations of the
main source file (class Object and the per-frame loop in main, plus the
grid displacement pass in CreateGridVertices).  Floating point values are
modelled as exact reals; the C++ pow and sqrt calls become Real.rpow and
Real.sqrt.  The per-frame loop is modelled as a function on the list of
objects together with the shared static trail frame counter.
-/
import Mathlib

open scoped Classical

noncomputable section

/-- Three component vector (glm vec3), embedded over the reals. -/
@[ext] structure Vec3 where
  x : ℝ
  y : ℝ
  z : ℝ

/-- Componentwise difference of vectors (glm subtraction). -/
def Vec3.sub (a b : Vec3) : Vec3 := ⟨a.x - b.x, a.y - b.y, a.z - b.z⟩

/-- Multiplication of a vector by a scalar (glm vec *= float). -/
def Vec3.scale (k : ℝ) (v : Vec3) : Vec3 := ⟨v.x * k, v.y * k, v.z * k⟩

/-- glm length: square root of the sum of squared components. -/
def Vec3.len (v : Vec3) : ℝ := Real.sqrt (v.x * v.x + v.y * v.y + v.z * v.z)

/-- Gravitational constant, source: const double G = 6.6743e-11. -/
def G : ℝ := 6.6743e-11

/-- Speed of light, source: const float c = 299792458.0. -/
def c : ℝ := 299792458.0

/-- The pi literal 3.14159265359 used by the radius formula in the source. -/
def piLit : ℝ := 3.14159265359

/-- Trail capacity, source field maxTrailLength = 30 (never reassigned). -/
def maxTrailLength : ℕ := 30

/-- Radius from mass and density, as written at source lines 94, 141, 374
and 422: pow(((3 * mass / density) / (4 * 3.14159265359)), 1/3) / 100000. -/
def radiusFormula (mass density : ℝ) : ℝ :=
  ((3 * mass / density) / (4 * piLit)) ^ ((1 : ℝ) / 3) / 100000

/-- One body.  Rendering-only fields of the C++ class (VAO, VBO, color,
vertexCount, Launched, target, LastPos) are omitted; trail spheres are
modelled by their positions. -/
@[ext] structure Object where
  position : Vec3
  velocity : Vec3
  mass : ℝ
  density : ℝ
  radius : ℝ
  Initalizing : Bool
  hasTrail : Bool
  trail : List Vec3

/-- Default object used for out-of-range list lookups. -/
def objDefault : Object :=
  { position := ⟨0, 0, 0⟩, velocity := ⟨0, 0, 0⟩, mass := 0, density := 0,
    radius := 0, Initalizing := false, hasTrail := false, trail := [] }

/-- The Object constructor (source lines 89-104): stores position,
velocity, mass, density, computes the radius from the formula, and starts
with an empty trail; Initalizing and hasTrail start false. -/
def mkObject (initPosition initVelocity : Vec3) (mass : ℝ)
    (density : ℝ := 3344) : Object :=
  { position := initPosition, velocity := initVelocity, mass := mass,
    density := density, radius := radiusFormula mass density,
    Initalizing := false, hasTrail := false, trail := [] }

/-- Object::accelerate (source lines 159-163):
velocity[i] += a[i] / 96 * simulationSpeed. -/
def Object.accelerate (o : Object) (speed ax ay az : ℝ) : Object :=
  { o with velocity :=
      ⟨o.velocity.x + ax / 96 * speed,
       o.velocity.y + ay / 96 * speed,
       o.velocity.z + az / 96 * speed⟩ }

/-- The distance computed inside Object::CheckCollision (source line 168):
std::pow(dx*dx + dy*dy + dz*dz, 1/2). -/
def distRp (o other : Object) : ℝ :=
  ((other.position.x - o.position.x) * (other.position.x - o.position.x) +
   (other.position.y - o.position.y) * (other.position.y - o.position.y) +
   (other.position.z - o.position.z) * (other.position.z - o.position.z))
    ^ ((1 : ℝ) / 2)

/-- Object::CheckCollision (source lines 164-173): returns -0.2 when
other.radius + this.radius > distance, else 1.0. -/
def Object.CheckCollision (o other : Object) : ℝ :=
  if other.radius + o.radius > distRp o other then -0.2 else 1.0

/-- The distance computed in the gravity loop (source line 402):
sqrt(dx*dx + dy*dy + dz*dz). -/
def distS (obj obj2 : Object) : ℝ :=
  Real.sqrt
    ((obj2.position.x - obj.position.x) * (obj2.position.x - obj.position.x) +
     (obj2.position.y - obj.position.y) * (obj2.position.y - obj.position.y) +
     (obj2.position.z - obj.position.z) * (obj2.position.z - obj.position.z))

/-- The acceleration vector the gravity loop computes for obj from obj2
(source lines 399-411): direction * acc1 with
acc1 = ((G * mA * mB) / (1000 r)^2) / mA, zero when the distance guard
fails. -/
def gravAccVec (obj obj2 : Object) : Vec3 :=
  let dx := obj2.position.x - obj.position.x
  let dy := obj2.position.y - obj.position.y
  let dz := obj2.position.z - obj.position.z
  let distance := distS obj obj2
  if 0 < distance then
    let dm := distance * 1000
    let Gforce := G * obj.mass * obj2.mass / (dm * dm)
    let acc1 := Gforce / obj.mass
    ⟨dx / distance * acc1, dy / distance * acc1, dz / distance * acc1⟩
  else ⟨0, 0, 0⟩

/-- The append-and-evict step of Object::UpdateTrail (source lines
221-229): push the new sample at the tail; if the length now exceeds
maxTrailLength, drop the oldest (head). -/
def trailPush (t : List Vec3) (p : Vec3) : List Vec3 :=
  let t2 := t ++ [p]
  if t2.length > maxTrailLength then t2.tail else t2

/-- Object::UpdateTrail (source lines 176-233).  The C++ frame counter is
a function-local static, shared by all objects; it is threaded here as an
explicit argument and result.  When hasTrail is false the function
returns before touching the counter. -/
def Object.UpdateTrail (o : Object) (frameCount : ℕ) : Object × ℕ :=
  if o.hasTrail = true then
    let fc := frameCount + 1
    if fc % 5 = 0 then
      ({ o with trail := trailPush o.trail o.position }, fc)
    else (o, fc)
  else (o, frameCount)

/-- Object::UpdatePos (source lines 137-147):
position[i] += velocity[i] / 94 * simulationSpeed, then the radius is
recomputed from the formula, then the trail is updated if enabled. -/
def Object.UpdatePos (o : Object) (speed : ℝ) (frameCount : ℕ) :
    Object × ℕ :=
  let o2 : Object :=
    { o with
      position :=
        ⟨o.position.x + o.velocity.x / 94 * speed,
         o.position.y + o.velocity.y / 94 * speed,
         o.position.z + o.velocity.z / 94 * speed⟩,
      radius := radiusFormula o.mass o.density }
  if o2.hasTrail = true then o2.UpdateTrail frameCount else (o2, frameCount)

/-- The Initalizing mass growth applied once per frame while the right
mouse button is held (source lines 368-383): mass *= 1.0 + 1.0 * deltaTime
and the radius is recomputed from the formula. -/
def growInitializingMass (dt : ℝ) (o : Object) : Object :=
  let m := o.mass * (1.0 + 1.0 * dt)
  { o with mass := m, radius := radiusFormula m o.density }

/-- The per-frame radius refresh for Initalizing bodies
(source lines 421-424). -/
def refreshRadius (o : Object) : Object :=
  { o with radius := radiusFormula o.mass o.density }

/-- One inner-loop iteration of the physics loop for a fixed obj against
one obj2 (source lines 397-418): skip when either is Initalizing or the
distance is not positive; otherwise accelerate (unless paused) and then
scale the velocity by the collision factor. -/
def pairStep (pause : Bool) (speed : ℝ) (obj obj2 : Object) : Object :=
  if obj.Initalizing = true ∨ obj2.Initalizing = true then obj
  else
    let distance := distS obj obj2
    if 0 < distance then
      let a := gravAccVec obj obj2
      let objA := if pause = true then obj
                  else obj.accelerate speed a.x a.y a.z
      { objA with velocity := Vec3.scale (objA.CheckCollision obj2) objA.velocity }
    else obj

/-- The whole inner loop for the body at index i: fold pairStep over all
indices j of the current object list, skipping j = i (the C++ address
comparison between references into the vector). -/
def innerLoop (pause : Bool) (speed : ℝ) (objs : List Object) (i : ℕ) :
    Object :=
  (List.range objs.length).foldl
    (fun o j => if j = i then o else pairStep pause speed o (objs.getD j objDefault))
    (objs.getD i objDefault)

/-- The force phase of one outer-loop iteration: the inner loop, then the
radius refresh when the body is Initalizing (source lines 397-424). -/
def bodyForcePhase (pause : Bool) (speed : ℝ) (objs : List Object)
    (i : ℕ) : Object :=
  let o := innerLoop pause speed objs i
  if o.Initalizing = true then refreshRadius o else o

/-- One full outer-loop iteration for the body at index i: force phase
followed by UpdatePos unless paused (source lines 394-429). -/
def bodyStep (pause : Bool) (speed : ℝ) (objs : List Object) (i : ℕ)
    (fc : ℕ) : Object × ℕ :=
  let o := bodyForcePhase pause speed objs i
  if pause = true then (o, fc) else o.UpdatePos speed fc

/-- Writing the result of one outer-loop iteration back into the object
list in place. -/
def tickStep (pause : Bool) (speed : ℝ) (s : List Object × ℕ) (i : ℕ) :
    List Object × ℕ :=
  let r := bodyStep pause speed s.1 i s.2
  (s.1.set i r.1, r.2)

/-- One simulation tick: the outer for loop of main (source lines
394-446), processing each body in order and writing it back in place, so
that later bodies observe the already-updated state of earlier ones. -/
def tick (pause : Bool) (speed : ℝ) (objs : List Object) (fc : ℕ) :
    List Object × ℕ :=
  (List.range objs.length).foldl (tickStep pause speed) (objs, fc)

/-- Sequential integration of a list of already-force-updated bodies,
threading the trail counter. -/
def integrateAll (speed : ℝ) : List Object → ℕ → List Object × ℕ
  | [], fc => ([], fc)
  | o :: rest, fc =>
    let r := o.UpdatePos speed fc
    let rr := integrateAll speed rest r.2
    (r.1 :: rr.1, rr.2)

/-- Compute-then-apply reference tick, written from the words of the
specification for the refinement claim: every body's force phase is
computed from the start-of-tick snapshot of the object list, and only
then are the per-body results integrated. -/
def snapshotTick (pause : Bool) (speed : ℝ) (objs : List Object)
    (fc : ℕ) : List Object × ℕ :=
  let phase1 := (List.range objs.length).map (bodyForcePhase pause speed objs)
  if pause = true then (phase1, fc) else integrateAll speed phase1 fc

/-- The new y value for one grid vertex in the displacement pass of
CreateGridVertices (source lines 785-806): each body adds the scalar
z = 2 * sqrt(rs * (distance_m - rs)) * 100 to every component of the
accumulator, the vertex is shifted by the accumulator, and only the y
slot is written back, as vertexPos.y / 15 - 3000. -/
def displaceVertexY (objs : List Object) (x y z : ℝ) : ℝ :=
  let vertexPos : Vec3 := ⟨x, y, z⟩
  let total := objs.foldl
    (fun (td : Vec3) obj =>
      let toObject := Vec3.sub obj.position vertexPos
      let distance := toObject.len
      let dm := distance * 1000
      let rs := 2 * G * obj.mass / (c * c)
      let zc := 2 * Real.sqrt (rs * (dm - rs)) * 100
      ⟨td.x + zc, td.y + zc, td.z + zc⟩)
    ⟨0, 0, 0⟩
  (y + total.y) / 15 - 3000

/-- The displacement pass over the flat vertex array of
CreateGridVertices: indices i, i+1, i+2 hold x, y, z of one vertex and
only slot i+1 is written back (source line 805).  The grid generator
always produces a length that is a multiple of three; a trailing partial
chunk is left unchanged. -/
def displacePass (objs : List Object) : List ℝ → List ℝ
  | x :: y :: z :: rest =>
    x :: displaceVertexY objs x y z :: z :: displacePass objs rest
  | l => l

/-- The x and z slots of a flat vertex array (every component except
index 1 of each 3-chunk). -/
def keepXZ : List ℝ → List ℝ
  | x :: _ :: z :: rest => x :: z :: keepXZ rest
  | l => l

/-- Schwarzschild radius as computed at source line 795. -/
def rsOf (m : ℝ) : ℝ := 2 * G * m / (c * c)

/-- Distance in meters from a body position to a grid sample point
(source lines 791-794): glm length times 1000. -/
def distm (objPos v : Vec3) : ℝ := (Vec3.sub objPos v).len * 1000

/-- The argument handed to sqrt at source line 797 for one body and one
sample point: rs * (distance_m - rs). -/
def sqrtArgOf (obj : Object) (v : Vec3) : ℝ :=
  rsOf obj.mass * (distm obj.position v - rsOf obj.mass)

/-- The smallest positive value of the 32-bit floats the program
computes with: the subnormal 2^-149.  A product whose exact value has a
smaller magnitude underflows to a signed zero in the program. -/
def minPosF32 : ℝ := 1 / 2 ^ 149

/-- One body's contribution to the displacement accumulator, with the
sqrt domain made explicit.  The program computes rs * (distance_m - rs)
in 32-bit floats: when that product is a genuinely negative float, sqrt
yields NaN (a domain error, modelled as none); when a tiny negative
exact value underflows to -0.0, sqrt returns -0.0 and the contribution
is zero, not an error.  The model therefore reports a domain error only
for arguments at or below -minPosF32, where the float product is
certainly a negative nonzero number; nonnegative arguments give the
contribution 2 * sqrt(rs * (distance_m - rs)) * 100 of source line 797,
and arguments in the underflow gap give zero (Real.sqrt of a negative
real is zero).  Every theorem below uses inputs whose argument magnitude
is dozens of orders of magnitude away from the underflow boundary. -/
def contribChecked (obj : Object) (v : Vec3) : Option ℝ :=
  if sqrtArgOf obj v ≤ -minPosF32 then none
  else some (2 * Real.sqrt (sqrtArgOf obj v) * 100)

/-! ### Helper lemmas -/

lemma UpdateTrail_keeps (o : Object) (fc : ℕ) :
    ((o.UpdateTrail fc).1).position = o.position ∧
    ((o.UpdateTrail fc).1).velocity = o.velocity ∧
    ((o.UpdateTrail fc).1).mass = o.mass ∧
    ((o.UpdateTrail fc).1).density = o.density ∧
    ((o.UpdateTrail fc).1).radius = o.radius := by
  simp only [Object.UpdateTrail]
  split_ifs <;> simp

lemma UpdatePos_fst_radius (o : Object) (s : ℝ) (fc : ℕ) :
    ((o.UpdatePos s fc).1).radius = radiusFormula o.mass o.density := by
  simp only [Object.UpdatePos]
  split_ifs with h
  · exact (UpdateTrail_keeps _ _).2.2.2.2
  · rfl

lemma UpdatePos_fst_mass (o : Object) (s : ℝ) (fc : ℕ) :
    ((o.UpdatePos s fc).1).mass = o.mass := by
  simp only [Object.UpdatePos]
  split_ifs with h
  · exact (UpdateTrail_keeps _ _).2.2.1
  · rfl

lemma UpdatePos_fst_density (o : Object) (s : ℝ) (fc : ℕ) :
    ((o.UpdatePos s fc).1).density = o.density := by
  simp only [Object.UpdatePos]
  split_ifs with h
  · exact (UpdateTrail_keeps _ _).2.2.2.1
  · rfl

lemma trailPush_length_le (t : List Vec3) (p : Vec3)
    (h : t.length ≤ maxTrailLength) :
    (trailPush t p).length ≤ maxTrailLength := by
  simp only [trailPush]
  split_ifs with hgt <;> simp_all

/-! ### Claim C6 -/

/-- Claim C6: after construction and after every operation that changes
mass or density (the Forming growth op, the per-tick position update, the
Initalizing radius refresh), the stored radius equals the mass-radius
formula cbrt((3 mass / density)/(4 pi))/100000 applied to the current
mass and density; no operation writes the radius by any other rule. -/
theorem radius_invariant :
    ∀ (p v : Vec3) (m d s dt : ℝ) (o : Object) (fc : ℕ),
      (mkObject p v m d).radius = radiusFormula m d ∧
      ((o.UpdatePos s fc).1).radius =
        radiusFormula ((o.UpdatePos s fc).1).mass ((o.UpdatePos s fc).1).density ∧
      (growInitializingMass dt o).radius =
        radiusFormula (growInitializingMass dt o).mass (growInitializingMass dt o).density ∧
      (refreshRadius o).radius =
        radiusFormula (refreshRadius o).mass (refreshRadius o).density := by
  intro p v m d s dt o fc
  refine ⟨rfl, ?_, rfl, rfl⟩
  rw [UpdatePos_fst_radius, UpdatePos_fst_mass, UpdatePos_fst_density]

/-! ### Claim C7 -/

/-- Claim C7: iterating the trail append-and-evict step on any sample
history keeps the buffer length at most 30, and the buffer holds exactly
the 30 most recent samples in oldest-first order (strict FIFO). -/
theorem trail_fifo_bound :
    ∀ hs : List Vec3,
      (hs.foldl trailPush []).length ≤ maxTrailLength ∧
      hs.foldl trailPush [] = hs.drop (hs.length - maxTrailLength) := by
  intro hs
  induction hs using List.reverseRecOn with
  | nil => simp
  | append_singleton l p ih =>
    obtain ⟨ihlen, ihval⟩ := ih
    rw [List.foldl_append, List.foldl_cons, List.foldl_nil, ihval]
    constructor
    · rw [ihval] at ihlen
      exact trailPush_length_le _ _ ihlen
    · by_cases hlen : l.length + 1 ≤ maxTrailLength
      · have h0 : l.length - maxTrailLength = 0 := by omega
        have h1 : (l ++ [p]).length - maxTrailLength = 0 := by
          simp only [List.length_append, List.length_cons, List.length_nil]
          omega
        rw [h0, h1, List.drop_zero, List.drop_zero]
        simp only [trailPush]
        rw [if_neg (by
          simp only [List.length_append, List.length_cons, List.length_nil]
          omega)]
      · have h30 : maxTrailLength ≤ l.length := by omega
        have hdlen : (l.drop (l.length - maxTrailLength)).length = maxTrailLength := by
          rw [List.length_drop]; omega
        simp only [trailPush]
        rw [if_pos (by
          simp only [List.length_append, List.length_cons, List.length_nil, hdlen]
          omega)]
        have hne : l.drop (l.length - maxTrailLength) ≠ [] := by
          intro hnil
          rw [hnil] at hdlen
          simp [maxTrailLength] at hdlen
        rw [List.tail_append_of_ne_nil hne, List.tail_drop]
        have harr : (l ++ [p]).length - maxTrailLength
            = (l.length - maxTrailLength + 1) := by
          simp only [List.length_append, List.length_cons, List.length_nil]
          omega
        rw [harr]
        have hmax : maxTrailLength = 30 := rfl
        have hle : l.length - maxTrailLength + 1 ≤ l.length := by omega
        rw [List.drop_append_of_le_length hle]

/-! ### Claim C3 -/

lemma rpow_third_of_cube (q : ℝ) (hq : 0 ≤ q) :
    ((q ^ (3 : ℕ) : ℝ)) ^ ((1 : ℝ) / 3) = q := by
  rw [← Real.rpow_natCast q 3, ← Real.rpow_mul hq]
  norm_num

/-- The body at the C3 counterexample: the Earth body the program itself
creates (main, line 292: mass 5.97219e24 kg, density 5515, at the
origin, at rest), with a sample point taken at its position. -/
def obC3 : Object := mkObject ⟨0, 0, 0⟩ ⟨0, 0, 0⟩ 5.97219e24 5515

lemma distm_obC3 : distm obC3.position ⟨0, 0, 0⟩ = 0 := by
  unfold distm
  have h0 : (Vec3.sub obC3.position ⟨0, 0, 0⟩).len = 0 := by
    show (Vec3.sub ⟨0, 0, 0⟩ ⟨0, 0, 0⟩).len = 0
    unfold Vec3.sub Vec3.len
    norm_num
  rw [h0]
  ring

lemma rsOf_obC3_pos : 0 < rsOf obC3.mass := by
  show 0 < rsOf (5.97219e24 : ℝ)
  unfold rsOf G c
  norm_num

lemma rs_sq_obC3 : minPosF32 ≤ rsOf obC3.mass * rsOf obC3.mass := by
  show minPosF32 ≤ rsOf (5.97219e24 : ℝ) * rsOf (5.97219e24 : ℝ)
  unfold rsOf minPosF32 G c
  norm_num

/-- Claim C3 (amended): a sample point exactly at the Schwarzschild
radius contributes exactly zero; for a sample point strictly inside the
Schwarzschild radius the code has no clamp, so whenever the product
rs * (rs - r_m) is at least the smallest positive 32-bit float (true by
a huge margin for every body the program creates), the sqrt receives a
genuinely negative argument and the domain error (NaN) propagates,
modelled as a none result.  Only when that product underflows to
negative zero does sqrt return -0.0 with a zero contribution. -/
theorem schwarzschild_clamp_amended (obj : Object) (v : Vec3) :
    (distm obj.position v = rsOf obj.mass → contribChecked obj v = some 0) ∧
    (distm obj.position v < rsOf obj.mass →
      minPosF32 ≤ rsOf obj.mass * (rsOf obj.mass - distm obj.position v) →
      contribChecked obj v = none) := by
  constructor
  · intro heq
    have harg : sqrtArgOf obj v = 0 := by
      unfold sqrtArgOf
      rw [heq]
      ring
    unfold contribChecked
    simp only [harg]
    rw [if_neg (show ¬((0 : ℝ) ≤ -minPosF32) from by unfold minPosF32; norm_num)]
    rw [Real.sqrt_zero]
    norm_num
  · intro hlt hbig
    have harg : sqrtArgOf obj v ≤ -minPosF32 := by
      have hneg : rsOf obj.mass * (distm obj.position v - rsOf obj.mass)
          = -(rsOf obj.mass * (rsOf obj.mass - distm obj.position v)) := by ring
      unfold sqrtArgOf
      rw [hneg]
      linarith
    unfold contribChecked
    rw [if_pos harg]

/-- Witness for the amended claim C3 at a concrete input: the Earth body
at its own position, whose sqrt argument is -rs^2, about -7.9e-5, far
below the float underflow threshold. -/
theorem schwarzschild_clamp_amended_witness :
    (distm obC3.position ⟨0, 0, 0⟩ < rsOf obC3.mass ∧
     minPosF32 ≤ rsOf obC3.mass * (rsOf obC3.mass - distm obC3.position ⟨0, 0, 0⟩)) ∧
    contribChecked obC3 ⟨0, 0, 0⟩ = none := by
  have h2 : distm obC3.position ⟨0, 0, 0⟩ < rsOf obC3.mass := by
    rw [distm_obC3]
    exact rsOf_obC3_pos
  have h3 : minPosF32
      ≤ rsOf obC3.mass * (rsOf obC3.mass - distm obC3.position ⟨0, 0, 0⟩) := by
    rw [distm_obC3, sub_zero]
    exact rs_sq_obC3
  exact ⟨⟨h2, h3⟩, (schwarzschild_clamp_amended obC3 ⟨0, 0, 0⟩).2 h2 h3⟩

/-- Counterexample to claim C3 as stated: a sample point at the position
of the program's own Earth body lies inside its Schwarzschild radius,
and the code evaluates sqrt on the argument rs * (0 - rs), about
-7.9e-5: a negative nonzero 32-bit float, so sqrt yields NaN, a domain
error instead of the claimed zero contribution. -/
theorem schwarzschild_domain_cex : contribChecked obC3 ⟨0, 0, 0⟩ = none := by
  have harg : sqrtArgOf obC3 ⟨0, 0, 0⟩ ≤ -minPosF32 := by
    unfold sqrtArgOf
    rw [distm_obC3]
    have hneg : rsOf obC3.mass * (0 - rsOf obC3.mass)
        = -(rsOf obC3.mass * rsOf obC3.mass) := by ring
    rw [hneg]
    have := rs_sq_obC3
    linarith
  unfold contribChecked
  rw [if_pos harg]

/-! ### Claim C4 -/

lemma distS_of_eq_pos (obj obj2 : Object) (h : obj.position = obj2.position) :
    distS obj obj2 = 0 := by
  unfold distS
  rw [h]
  simp

lemma pairStep_of_eq_pos (p : Bool) (s : ℝ) (obj obj2 : Object)
    (h : obj.position = obj2.position) : pairStep p s obj obj2 = obj := by
  simp only [pairStep]
  rw [distS_of_eq_pos _ _ h]
  rw [if_neg (lt_irrefl (0 : ℝ))]
  rw [ite_self]

lemma CheckCollision_accelerate (o other : Object) (s ax ay az : ℝ) :
    (o.accelerate s ax ay az).CheckCollision other = o.CheckCollision other := rfl

/-- Claim C4 (amended): for an ordered pair of Active bodies the applied
velocity factor is exactly -0.2 when radiusA + radiusB exceeds the
distance, exactly 1.0 when they merely touch (the boundary is exclusive),
and the factor is applied to the velocity after the optional
acceleration; but a pair at distance exactly 0 is skipped by the
distance > 0 guard of the loop, so no damping is applied there. -/
theorem collision_factor_amended (p : Bool) (s : ℝ) (A B : Object)
    (hA : A.Initalizing = false) (hB : B.Initalizing = false) :
    (distRp A B < B.radius + A.radius → A.CheckCollision B = -0.2) ∧
    (distRp A B = B.radius + A.radius → A.CheckCollision B = 1.0) ∧
    (A.position = B.position → pairStep p s A B = A) ∧
    (0 < distS A B →
      (pairStep p s A B).velocity =
        Vec3.scale (A.CheckCollision B)
          (if p = true then A.velocity
           else (A.accelerate s (gravAccVec A B).x (gravAccVec A B).y
             (gravAccVec A B).z).velocity)) := by
  refine ⟨?_, ?_, ?_, ?_⟩
  · intro hlt
    unfold Object.CheckCollision
    rw [if_pos hlt]
  · intro heq
    unfold Object.CheckCollision
    rw [if_neg (by rw [heq]; exact lt_irrefl _)]
  · intro hp
    exact pairStep_of_eq_pos p s A B hp
  · intro hd
    simp only [pairStep]
    rw [if_neg (by simp [hA, hB]), if_pos hd]
    cases p
    · show Vec3.scale ((A.accelerate s _ _ _).CheckCollision B) _ = _
      rw [CheckCollision_accelerate]
      rfl
    · show Vec3.scale (A.CheckCollision B) A.velocity = _
      rfl

/-- Bodies for the C4 witness: both Active, at distance 1. -/
def cwA : Object := mkObject ⟨0, 0, 0⟩ ⟨3, 0, 0⟩ 1 1

/-- Second body for the C4 witness. -/
def cwB : Object := mkObject ⟨1, 0, 0⟩ ⟨0, 0, 0⟩ 1 1

/-- Witness for the amended claim C4 at a concrete input. -/
theorem collision_factor_amended_witness :
    cwA.Initalizing = false ∧ cwB.Initalizing = false ∧
    ((distRp cwA cwB < cwB.radius + cwA.radius → cwA.CheckCollision cwB = -0.2) ∧
     (distRp cwA cwB = cwB.radius + cwA.radius → cwA.CheckCollision cwB = 1.0) ∧
     (cwA.position = cwB.position → pairStep false 1 cwA cwB = cwA) ∧
     (0 < distS cwA cwB →
       (pairStep false 1 cwA cwB).velocity =
         Vec3.scale (cwA.CheckCollision cwB)
           (if false = true then cwA.velocity
            else (cwA.accelerate 1 (gravAccVec cwA cwB).x (gravAccVec cwA cwB).y
              (gravAccVec cwA cwB).z).velocity))) :=
  ⟨rfl, rfl, collision_factor_amended false 1 cwA cwB rfl rfl⟩

/-- Coincident bodies for the C4 counterexample. -/
def czA : Object := mkObject ⟨5, 0, 0⟩ ⟨7, 0, 0⟩ 1 1

/-- Second coincident body for the C4 counterexample. -/
def czB : Object := mkObject ⟨5, 0, 0⟩ ⟨0, 0, 0⟩ 1 1

/-- Counterexample to claim C4 as stated: two Active bodies at distance
exactly 0 with positive radii satisfy the claimed overlap condition
radiusA + radiusB > distance, so the claim requires the -0.2 factor
(velocity x would become -1.4), but the pair is skipped and the velocity
is unchanged at 7. -/
theorem collision_distance_zero_cex :
    0 < czB.radius + czA.radius ∧
    (pairStep false 1 czA czB).velocity.x = 7 := by
  constructor
  · have h : (0 : ℝ) < radiusFormula 1 1 := by
      unfold radiusFormula
      apply div_pos
      · apply Real.rpow_pos_of_pos
        unfold piLit
        norm_num
      · norm_num
    show 0 < radiusFormula 1 1 + radiusFormula 1 1
    linarith
  · rw [pairStep_of_eq_pos false 1 czA czB rfl]
    rfl

/-! ### Claim C8 -/

lemma innerLoop_of_all_eq_pos (p : Bool) (s : ℝ) (objs : List Object) (i : ℕ)
    (h : ∀ j, (objs.getD j objDefault).position = (objs.getD i objDefault).position) :
    innerLoop p s objs i = objs.getD i objDefault := by
  unfold innerLoop
  generalize List.range objs.length = l
  induction l with
  | nil => rfl
  | cons j l ih =>
    simp only [List.foldl_cons]
    have hstep : (if j = i then objs.getD i objDefault
        else pairStep p s (objs.getD i objDefault) (objs.getD j objDefault))
        = objs.getD i objDefault := by
      split_ifs with hj
      · rfl
      · exact pairStep_of_eq_pos p s _ _ (h j).symm
    rw [hstep]
    exact ih

lemma UpdatePos_stationary (o : Object) (s : ℝ) (fc : ℕ)
    (hv : o.velocity = ⟨0, 0, 0⟩) (hr : o.radius = radiusFormula o.mass o.density)
    (ht : o.hasTrail = true) :
    o.UpdatePos s fc =
      (if (fc + 1) % 5 = 0 then
        ({ o with trail := trailPush o.trail o.position }, fc + 1)
       else (o, fc + 1)) := by
  have hvx : o.velocity.x = 0 := by rw [hv]
  have hvy : o.velocity.y = 0 := by rw [hv]
  have hvz : o.velocity.z = 0 := by rw [hv]
  have ho2 : ({ o with
      position :=
        ⟨o.position.x + o.velocity.x / 94 * s,
         o.position.y + o.velocity.y / 94 * s,
         o.position.z + o.velocity.z / 94 * s⟩,
      radius := radiusFormula o.mass o.density } : Object) = o := by
    refine Object.ext ?_ rfl rfl rfl ?_ rfl rfl rfl
    · show (⟨o.position.x + o.velocity.x / 94 * s,
        o.position.y + o.velocity.y / 94 * s,
        o.position.z + o.velocity.z / 94 * s⟩ : Vec3) = o.position
      ext <;> simp [hvx, hvy, hvz]
    · exact hr.symm
  simp only [Object.UpdatePos]
  simp only [ho2]
  rw [if_pos ht]
  simp only [Object.UpdateTrail]
  rw [if_pos ht]

/-- A trail-enabled stationary body at the origin. -/
def eT : Object := { mkObject ⟨0, 0, 0⟩ ⟨0, 0, 0⟩ 1 1 with hasTrail := true }

/-- Five identical trail-enabled bodies at the same position: all pair
interactions are skipped by the distance guard, isolating the trail
counter behavior. -/
def objs5 : List Object := [eT, eT, eT, eT, eT]

lemma objs5_pos : ∀ j, ((objs5.getD j objDefault).position : Vec3) = ⟨0, 0, 0⟩ := by
  intro j
  match j with
  | 0 => rfl
  | 1 => rfl
  | 2 => rfl
  | 3 => rfl
  | 4 => rfl
  | n + 5 =>
    simp only [objs5, List.getD_cons_succ, List.getD_nil]
    rfl

lemma bodyStep_objs5 (k : ℕ) (hk : k < 5) (fc : ℕ) :
    bodyStep false 1 objs5 k fc =
      (if (fc + 1) % 5 = 0 then
        ({ eT with trail := trailPush eT.trail eT.position }, fc + 1)
       else (eT, fc + 1)) := by
  have hgetD : objs5.getD k objDefault = eT := by
    interval_cases k <;> rfl
  have hpos : ∀ j, (objs5.getD j objDefault).position
      = (objs5.getD k objDefault).position := by
    intro j
    rw [hgetD]
    exact (objs5_pos j).trans rfl
  have hil : innerLoop false 1 objs5 k = eT := by
    rw [innerLoop_of_all_eq_pos false 1 objs5 k hpos, hgetD]
  simp only [bodyStep, bodyForcePhase]
  rw [hil]
  rw [if_neg (show ¬(eT.Initalizing = true) from Bool.false_ne_true)]
  rw [if_neg (show ¬((false : Bool) = true) from Bool.false_ne_true)]
  exact UpdatePos_stationary eT 1 fc rfl rfl rfl

lemma tick_objs5_eval :
    tick false 1 objs5 0
      = ([eT, eT, eT, eT, { eT with trail := [(⟨0, 0, 0⟩ : Vec3)] }], 5) := by
  have htp : trailPush eT.trail eT.position = [(⟨0, 0, 0⟩ : Vec3)] := by
    show trailPush [] ⟨0, 0, 0⟩ = _
    simp only [trailPush]
    rw [if_neg (by norm_num [maxTrailLength])]
    rfl
  have e0 : tickStep false 1 (objs5, 0) 0 = (objs5, 1) := by
    show (objs5.set 0 (bodyStep false 1 objs5 0 0).1,
      (bodyStep false 1 objs5 0 0).2) = (objs5, 1)
    rw [bodyStep_objs5 0 (by norm_num) 0, if_neg (by norm_num)]
    rfl
  have e1 : tickStep false 1 (objs5, 1) 1 = (objs5, 2) := by
    show (objs5.set 1 (bodyStep false 1 objs5 1 1).1,
      (bodyStep false 1 objs5 1 1).2) = (objs5, 2)
    rw [bodyStep_objs5 1 (by norm_num) 1, if_neg (by norm_num)]
    rfl
  have e2 : tickStep false 1 (objs5, 2) 2 = (objs5, 3) := by
    show (objs5.set 2 (bodyStep false 1 objs5 2 2).1,
      (bodyStep false 1 objs5 2 2).2) = (objs5, 3)
    rw [bodyStep_objs5 2 (by norm_num) 2, if_neg (by norm_num)]
    rfl
  have e3 : tickStep false 1 (objs5, 3) 3 = (objs5, 4) := by
    show (objs5.set 3 (bodyStep false 1 objs5 3 3).1,
      (bodyStep false 1 objs5 3 3).2) = (objs5, 4)
    rw [bodyStep_objs5 3 (by norm_num) 3, if_neg (by norm_num)]
    rfl
  have e4 : tickStep false 1 (objs5, 4) 4
      = ([eT, eT, eT, eT, { eT with trail := trailPush eT.trail eT.position }], 5) := by
    show (objs5.set 4 (bodyStep false 1 objs5 4 4).1,
      (bodyStep false 1 objs5 4 4).2) = _
    rw [bodyStep_objs5 4 (by norm_num) 4, if_pos (by norm_num)]
    rfl
  show (List.range objs5.length).foldl (tickStep false 1) (objs5, 0) = _
  rw [show objs5.length = 5 from rfl]
  rw [show List.range 5 = [0, 1, 2, 3, 4] by decide]
  simp only [List.foldl_cons, List.foldl_nil]
  rw [e0, e1, e2, e3, e4, htp]

/-- Counterexample to claim C8 as stated: with five trail-enabled bodies,
the shared static frame counter reaches 5 within the very first tick, so
the fifth body receives a trail sample on its first tick, not its fifth,
while the first body receives none. -/
theorem trail_shared_counter_cex :
    ((tick false 1 objs5 0).1.getD 4 objDefault).trail.length = 1 ∧
    ((tick false 1 objs5 0).1.getD 0 objDefault).trail = [] := by
  rw [tick_objs5_eval]
  exact ⟨rfl, rfl⟩

/-- Claim C8 (amended): UpdateTrail advances a single frame counter
shared by all bodies (a C++ function-local static) once per
trail-enabled call, and appends a sample equal to the current position
exactly when that shared counter is divisible by 5; only when a single
body is trail-enabled does this coincide with every 5th of its own
ticks. -/
theorem trail_cadence_amended (o : Object) (fc : ℕ) (h : o.hasTrail = true) :
    (o.UpdateTrail fc).2 = fc + 1 ∧
    (o.UpdateTrail fc).1.trail =
      (if (fc + 1) % 5 = 0 then trailPush o.trail o.position else o.trail) := by
  simp only [Object.UpdateTrail]
  rw [if_pos h]
  split_ifs with h5 <;> simp

/-- Witness for the amended claim C8 at a concrete input. -/
theorem trail_cadence_amended_witness :
    eT.hasTrail = true ∧
    ((eT.UpdateTrail 4).2 = 4 + 1 ∧
     (eT.UpdateTrail 4).1.trail =
       (if (4 + 1) % 5 = 0 then trailPush eT.trail eT.position else eT.trail)) :=
  ⟨rfl, trail_cadence_amended eT 4 rfl⟩

/-! ### Claim C2 -/

lemma pairStep_position (p : Bool) (s : ℝ) (a b : Object) :
    (pairStep p s a b).position = a.position := by
  simp only [pairStep]
  split_ifs <;> simp [Object.accelerate]

lemma innerLoop_position (p : Bool) (s : ℝ) (objs : List Object) (i : ℕ) :
    (innerLoop p s objs i).position = (objs.getD i objDefault).position := by
  unfold innerLoop
  suffices h : ∀ (l : List ℕ) (o : Object),
      ((l.foldl (fun o j => if j = i then o
        else pairStep p s o (objs.getD j objDefault)) o).position) = o.position by
    exact h _ _
  intro l
  induction l with
  | nil => intro o; rfl
  | cons j t ih =>
    intro o
    simp only [List.foldl_cons]
    rw [ih]
    split_ifs
    · rfl
    · exact pairStep_position p s o _

lemma bodyForcePhase_position (p : Bool) (s : ℝ) (objs : List Object) (i : ℕ) :
    (bodyForcePhase p s objs i).position = (objs.getD i objDefault).position := by
  simp only [bodyForcePhase]
  split_ifs
  · exact innerLoop_position p s objs i
  · exact innerLoop_position p s objs i

lemma bodyStep_paused (s : ℝ) (objs : List Object) (i fc : ℕ) :
    bodyStep true s objs i fc = (bodyForcePhase true s objs i, fc) := by
  simp only [bodyStep]
  rw [if_true]

lemma set_getD_self {α : Type _} : ∀ (l : List α) (i : ℕ) (d : α),
    l.set i (l.getD i d) = l := by
  intro l
  induction l with
  | nil => intro i d; rfl
  | cons a t ih =>
    intro i d
    cases i with
    | zero => rfl
    | succ n =>
      show a :: t.set n (t.getD n d) = a :: t
      rw [ih]

lemma getD_map_position : ∀ (l : List Object) (i : ℕ),
    (l.map Object.position).getD i objDefault.position
      = (l.getD i objDefault).position := by
  intro l
  induction l with
  | nil => intro i; rfl
  | cons a t ih =>
    intro i
    cases i with
    | zero => rfl
    | succ n =>
      show (t.map Object.position).getD n objDefault.position
        = (t.getD n objDefault).position
      exact ih n

/-- Claim C2 (amended): a paused tick changes no body's position and
leaves the trail counter untouched (so no integration and no trail
sampling happens); gravitational acceleration is computed but not
applied.  However the collision scale factor IS applied even when
paused, so velocities can still change (see the counterexample). -/
theorem paused_tick_positions_fixed :
    ∀ (speed : ℝ) (objs : List Object) (fc : ℕ),
      (tick true speed objs fc).1.map Object.position = objs.map Object.position ∧
      (tick true speed objs fc).2 = fc := by
  intro speed objs fc
  have key : ∀ (l : List ℕ) (st : List Object × ℕ),
      (l.foldl (tickStep true speed) st).1.map Object.position
        = st.1.map Object.position ∧
      (l.foldl (tickStep true speed) st).2 = st.2 := by
    intro l
    induction l with
    | nil => intro st; exact ⟨rfl, rfl⟩
    | cons j t ih =>
      intro st
      simp only [List.foldl_cons]
      obtain ⟨ih1, ih2⟩ := ih (tickStep true speed st j)
      have hb : (bodyStep true speed st.1 j st.2).1
          = bodyForcePhase true speed st.1 j := by
        rw [bodyStep_paused]
      have hstep1 : (tickStep true speed st j).1.map Object.position
          = st.1.map Object.position := by
        show (st.1.set j (bodyStep true speed st.1 j st.2).1).map Object.position
          = st.1.map Object.position
        rw [hb, List.map_set, bodyForcePhase_position, ← getD_map_position]
        exact set_getD_self _ _ _
      have hstep2 : (tickStep true speed st j).2 = st.2 := by
        show (bodyStep true speed st.1 j st.2).2 = st.2
        rw [bodyStep_paused]
      exact ⟨ih1.trans hstep1, ih2.trans hstep2⟩
  exact key (List.range objs.length) (objs, fc)

lemma radiusFormula_1e15 : radiusFormula 1e15 (3 / (4 * piLit)) = 1 := by
  unfold radiusFormula
  have hbase : (3 * (1e15 : ℝ) / (3 / (4 * piLit))) / (4 * piLit) = 1e15 := by
    norm_num [piLit]
  rw [hbase]
  rw [show (1e15 : ℝ) = (1e5 : ℝ) ^ (3 : ℕ) by norm_num]
  rw [rpow_third_of_cube (1e5 : ℝ) (by norm_num)]
  norm_num

/-- Body A of the paused-overlap counterexample: unit radius, moving. -/
def dA : Object := mkObject ⟨0, 0, 0⟩ ⟨7, 0, 0⟩ 1e15 (3 / (4 * piLit))

/-- Body B of the paused-overlap counterexample: unit radius, at rest at
distance 1, overlapping A since the radius sum is 2. -/
def dB : Object := mkObject ⟨1, 0, 0⟩ ⟨0, 0, 0⟩ 1e15 (3 / (4 * piLit))

/-- Body A after its paused pair interaction with B. -/
def dA1 : Object := { dA with velocity := Vec3.scale (-0.2) dA.velocity }

/-- Body B after its paused pair interaction with A. -/
def dB1 : Object := { dB with velocity := Vec3.scale (-0.2) dB.velocity }

lemma dA_radius : dA.radius = 1 := radiusFormula_1e15

lemma dB_radius : dB.radius = 1 := radiusFormula_1e15

lemma innerLoop_two_0 (p : Bool) (s : ℝ) (a b : Object) :
    innerLoop p s [a, b] 0 = pairStep p s a b := by
  unfold innerLoop
  rw [show ([a, b] : List Object).length = 2 from rfl]
  rw [show List.range 2 = [0, 1] by decide]
  simp only [List.foldl_cons, List.foldl_nil]
  rw [if_true, if_neg (by norm_num : ¬(1 : ℕ) = 0)]
  rfl

lemma innerLoop_two_1 (p : Bool) (s : ℝ) (a b : Object) :
    innerLoop p s [a, b] 1 = pairStep p s b a := by
  unfold innerLoop
  rw [show ([a, b] : List Object).length = 2 from rfl]
  rw [show List.range 2 = [0, 1] by decide]
  simp only [List.foldl_cons, List.foldl_nil]
  rw [if_neg (by norm_num : ¬(0 : ℕ) = 1), if_true]
  rfl

lemma pairStep_dA_dB : pairStep true 1 dA dB = dA1 := by
  have hsum : ((dB.position.x - dA.position.x) * (dB.position.x - dA.position.x) +
      (dB.position.y - dA.position.y) * (dB.position.y - dA.position.y) +
      (dB.position.z - dA.position.z) * (dB.position.z - dA.position.z)) = 1 := by
    show ((1 : ℝ) - 0) * (1 - 0) + (0 - 0) * (0 - 0) + (0 - 0) * (0 - 0) = 1
    norm_num
  have hd : distS dA dB = 1 := by
    unfold distS
    rw [hsum, Real.sqrt_one]
  have hrp : distRp dA dB = 1 := by
    unfold distRp
    rw [hsum, Real.one_rpow]
  have hcc : dA.CheckCollision dB = -0.2 := by
    unfold Object.CheckCollision
    rw [hrp, dA_radius, dB_radius]
    rw [if_pos (by norm_num)]
  simp only [pairStep]
  rw [if_neg (show ¬(dA.Initalizing = true ∨ dB.Initalizing = true) from by
    intro hc
    rcases hc with h | h
    · exact Bool.false_ne_true h
    · exact Bool.false_ne_true h)]
  simp only [hd]
  rw [if_pos (by norm_num : (0 : ℝ) < 1)]
  rw [if_true]
  rw [hcc]
  rfl

lemma pairStep_dB_dA1 : pairStep true 1 dB dA1 = dB1 := by
  have hsum : ((dA1.position.x - dB.position.x) * (dA1.position.x - dB.position.x) +
      (dA1.position.y - dB.position.y) * (dA1.position.y - dB.position.y) +
      (dA1.position.z - dB.position.z) * (dA1.position.z - dB.position.z)) = 1 := by
    show ((0 : ℝ) - 1) * (0 - 1) + (0 - 0) * (0 - 0) + (0 - 0) * (0 - 0) = 1
    norm_num
  have hd : distS dB dA1 = 1 := by
    unfold distS
    rw [hsum, Real.sqrt_one]
  have hrp : distRp dB dA1 = 1 := by
    unfold distRp
    rw [hsum, Real.one_rpow]
  have hcc : dB.CheckCollision dA1 = -0.2 := by
    unfold Object.CheckCollision
    rw [hrp]
    rw [show dA1.radius = 1 from dA_radius, dB_radius]
    rw [if_pos (by norm_num)]
  simp only [pairStep]
  rw [if_neg (show ¬(dB.Initalizing = true ∨ dA1.Initalizing = true) from by
    intro hc
    rcases hc with h | h
    · exact Bool.false_ne_true h
    · exact Bool.false_ne_true h)]
  simp only [hd]
  rw [if_pos (by norm_num : (0 : ℝ) < 1)]
  rw [if_true]
  rw [hcc]
  rfl

lemma tick_dAdB_eval : tick true 1 [dA, dB] 0 = ([dA1, dB1], 0) := by
  have t0 : tickStep true 1 ([dA, dB], 0) 0 = ([dA1, dB], 0) := by
    show (([dA, dB] : List Object).set 0 (bodyStep true 1 [dA, dB] 0 0).1,
      (bodyStep true 1 [dA, dB] 0 0).2) = _
    rw [bodyStep_paused]
    simp only [bodyForcePhase]
    rw [innerLoop_two_0, pairStep_dA_dB]
    rw [if_neg (show ¬(dA1.Initalizing = true) from Bool.false_ne_true)]
    rfl
  have t1 : tickStep true 1 ([dA1, dB], 0) 1 = ([dA1, dB1], 0) := by
    show (([dA1, dB] : List Object).set 1 (bodyStep true 1 [dA1, dB] 1 0).1,
      (bodyStep true 1 [dA1, dB] 1 0).2) = _
    rw [bodyStep_paused]
    simp only [bodyForcePhase]
    rw [innerLoop_two_1, pairStep_dB_dA1]
    rw [if_neg (show ¬(dB1.Initalizing = true) from Bool.false_ne_true)]
    rfl
  show (List.range ([dA, dB] : List Object).length).foldl (tickStep true 1)
    ([dA, dB], 0) = _
  rw [show ([dA, dB] : List Object).length = 2 from rfl]
  rw [show List.range 2 = [0, 1] by decide]
  simp only [List.foldl_cons, List.foldl_nil]
  rw [t0, t1]

/-- Counterexample to claim C2 as stated: during a paused tick, the
collision scale is applied outside the pause guard, so body A (velocity x
equal to 7, overlapping body B) ends the paused tick with velocity x
equal to -1.4: a paused tick does change a body's velocity. -/
theorem paused_tick_velocity_cex :
    dA.velocity.x = 7 ∧
    ((tick true 1 [dA, dB] 0).1.getD 0 objDefault).velocity.x = -(7 / 5) := by
  constructor
  · rfl
  · rw [tick_dAdB_eval]
    show (7 : ℝ) * (-0.2) = -(7 / 5)
    norm_num

/-! ### Claims C5 and C1: two-body evaluation machinery -/

/-- Body A of the sequential-tick counterexample: unit mass at the
origin, at rest, with density chosen so the radius is exactly 1/100000. -/
def cA : Object := mkObject ⟨0, 0, 0⟩ ⟨0, 0, 0⟩ 1 (3 / (4 * piLit))

/-- Body B of the sequential-tick counterexample: mass chosen so that the
acceleration A receives is exactly 9024 = 96 * 94, which moves A by
exactly one unit, onto B, within the tick. -/
def cB : Object :=
  mkObject ⟨1, 0, 0⟩ ⟨0, 0, 0⟩ (9024 * 10 ^ 6 / G) (3 * (9024 * 10 ^ 6 / G) / (4 * piLit))

/-- Body A after the sequential tick. -/
def cA1 : Object := { cA with position := ⟨1, 0, 0⟩, velocity := ⟨94, 0, 0⟩ }

/-- Body B after its force phase in the compute-then-apply reference. -/
def cBv : Object := { cB with velocity := ⟨-(G / 10 ^ 6 / 96), 0, 0⟩ }

/-- Body B after the compute-then-apply reference tick. -/
def cB2 : Object :=
  { cB with
    position := ⟨1 - G / 10 ^ 6 / 96 / 94, 0, 0⟩,
    velocity := ⟨-(G / 10 ^ 6 / 96), 0, 0⟩ }

lemma cB_mass_ne : (9024 * 10 ^ 6 / G : ℝ) ≠ 0 := by
  apply div_ne_zero
  · norm_num
  · norm_num [G]

lemma cA_radius : cA.radius = 1 / 100000 := by
  show radiusFormula 1 (3 / (4 * piLit)) = 1 / 100000
  unfold radiusFormula
  have hbase : (3 * (1 : ℝ) / (3 / (4 * piLit))) / (4 * piLit) = 1 := by
    norm_num [piLit]
  rw [hbase, Real.one_rpow]

lemma cB_radius : cB.radius = 1 / 100000 := by
  show radiusFormula (9024 * 10 ^ 6 / G) (3 * (9024 * 10 ^ 6 / G) / (4 * piLit))
    = 1 / 100000
  unfold radiusFormula
  have hp : (4 * piLit : ℝ) ≠ 0 := by norm_num [piLit]
  have hG : G ≠ 0 := by norm_num [G]
  have hbase : (3 * (9024 * 10 ^ 6 / G : ℝ) / (3 * (9024 * 10 ^ 6 / G) / (4 * piLit)))
      / (4 * piLit) = 1 := by
    rw [div_eq_one_iff_eq (by positivity)]
    field_simp
    ring
  rw [hbase, Real.one_rpow]

lemma sum_cA_cB : ((cB.position.x - cA.position.x) * (cB.position.x - cA.position.x) +
    (cB.position.y - cA.position.y) * (cB.position.y - cA.position.y) +
    (cB.position.z - cA.position.z) * (cB.position.z - cA.position.z)) = 1 := by
  show ((1 : ℝ) - 0) * (1 - 0) + (0 - 0) * (0 - 0) + (0 - 0) * (0 - 0) = 1
  norm_num

lemma distS_cA_cB : distS cA cB = 1 := by
  unfold distS
  rw [sum_cA_cB, Real.sqrt_one]

lemma distRp_cA_cB : distRp cA cB = 1 := by
  unfold distRp
  rw [sum_cA_cB, Real.one_rpow]

lemma sum_cB_cA : ((cA.position.x - cB.position.x) * (cA.position.x - cB.position.x) +
    (cA.position.y - cB.position.y) * (cA.position.y - cB.position.y) +
    (cA.position.z - cB.position.z) * (cA.position.z - cB.position.z)) = 1 := by
  show ((0 : ℝ) - 1) * (0 - 1) + (0 - 0) * (0 - 0) + (0 - 0) * (0 - 0) = 1
  norm_num

lemma distS_cB_cA : distS cB cA = 1 := by
  unfold distS
  rw [sum_cB_cA, Real.sqrt_one]

lemma distRp_cB_cA : distRp cB cA = 1 := by
  unfold distRp
  rw [sum_cB_cA, Real.one_rpow]

lemma checkCollision_cA_cB : cA.CheckCollision cB = 1.0 := by
  unfold Object.CheckCollision
  rw [distRp_cA_cB, cA_radius, cB_radius]
  rw [if_neg (by norm_num)]

lemma checkCollision_cB_cA : cB.CheckCollision cA = 1.0 := by
  unfold Object.CheckCollision
  rw [distRp_cB_cA, cA_radius, cB_radius]
  rw [if_neg (by norm_num)]

lemma gravAcc_cA_cB : gravAccVec cA cB = ⟨9024, 0, 0⟩ := by
  simp only [gravAccVec, distS_cA_cB]
  rw [if_pos (by norm_num : (0 : ℝ) < 1)]
  ext
  · show (cB.position.x - cA.position.x) / 1
      * (G * cA.mass * cB.mass / (1 * 1000 * (1 * 1000)) / cA.mass) = 9024
    show ((1 : ℝ) - 0) / 1
      * (G * 1 * (9024 * 10 ^ 6 / G) / (1 * 1000 * (1 * 1000)) / 1) = 9024
    norm_num [G]
  · show (cB.position.y - cA.position.y) / 1
      * (G * cA.mass * cB.mass / (1 * 1000 * (1 * 1000)) / cA.mass) = 0
    show ((0 : ℝ) - 0) / 1
      * (G * 1 * (9024 * 10 ^ 6 / G) / (1 * 1000 * (1 * 1000)) / 1) = 0
    norm_num
  · show (cB.position.z - cA.position.z) / 1
      * (G * cA.mass * cB.mass / (1 * 1000 * (1 * 1000)) / cA.mass) = 0
    show ((0 : ℝ) - 0) / 1
      * (G * 1 * (9024 * 10 ^ 6 / G) / (1 * 1000 * (1 * 1000)) / 1) = 0
    norm_num

lemma gravAcc_cB_cA : gravAccVec cB cA = ⟨-(G / 10 ^ 6), 0, 0⟩ := by
  simp only [gravAccVec, distS_cB_cA]
  rw [if_pos (by norm_num : (0 : ℝ) < 1)]
  ext
  · show (cA.position.x - cB.position.x) / 1
      * (G * cB.mass * cA.mass / (1 * 1000 * (1 * 1000)) / cB.mass) = -(G / 10 ^ 6)
    show ((0 : ℝ) - 1) / 1
      * (G * (9024 * 10 ^ 6 / G) * 1 / (1 * 1000 * (1 * 1000)) / (9024 * 10 ^ 6 / G))
        = -(G / 10 ^ 6)
    norm_num [G]
  · show (cA.position.y - cB.position.y) / 1
      * (G * cB.mass * cA.mass / (1 * 1000 * (1 * 1000)) / cB.mass) = 0
    show ((0 : ℝ) - 0) / 1
      * (G * (9024 * 10 ^ 6 / G) * 1 / (1 * 1000 * (1 * 1000)) / (9024 * 10 ^ 6 / G)) = 0
    norm_num
  · show (cA.position.z - cB.position.z) / 1
      * (G * cB.mass * cA.mass / (1 * 1000 * (1 * 1000)) / cB.mass) = 0
    show ((0 : ℝ) - 0) / 1
      * (G * (9024 * 10 ^ 6 / G) * 1 / (1 * 1000 * (1 * 1000)) / (9024 * 10 ^ 6 / G)) = 0
    norm_num

lemma pairStep_cA_cB :
    pairStep false 1 cA cB = { cA with velocity := (⟨94, 0, 0⟩ : Vec3) } := by
  simp only [pairStep]
  rw [if_neg (show ¬(cA.Initalizing = true ∨ cB.Initalizing = true) from by
    intro hc
    rcases hc with h | h
    · exact Bool.false_ne_true h
    · exact Bool.false_ne_true h)]
  simp only [distS_cA_cB]
  rw [if_pos (by norm_num : (0 : ℝ) < 1)]
  rw [if_neg (show ¬((false : Bool) = true) from Bool.false_ne_true)]
  rw [gravAcc_cA_cB]
  rw [CheckCollision_accelerate, checkCollision_cA_cB]
  refine Object.ext rfl ?_ rfl rfl rfl rfl rfl rfl
  ext
  · show (cA.velocity.x + (⟨(9024 : ℝ), 0, 0⟩ : Vec3).x / 96 * 1) * 1.0 = 94
    show ((0 : ℝ) + 9024 / 96 * 1) * 1.0 = 94
    norm_num
  · show (cA.velocity.y + (⟨(9024 : ℝ), 0, 0⟩ : Vec3).y / 96 * 1) * 1.0 = 0
    show ((0 : ℝ) + 0 / 96 * 1) * 1.0 = 0
    norm_num
  · show (cA.velocity.z + (⟨(9024 : ℝ), 0, 0⟩ : Vec3).z / 96 * 1) * 1.0 = 0
    show ((0 : ℝ) + 0 / 96 * 1) * 1.0 = 0
    norm_num

lemma pairStep_cB_cA : pairStep false 1 cB cA = cBv := by
  simp only [pairStep]
  rw [if_neg (show ¬(cB.Initalizing = true ∨ cA.Initalizing = true) from by
    intro hc
    rcases hc with h | h
    · exact Bool.false_ne_true h
    · exact Bool.false_ne_true h)]
  simp only [distS_cB_cA]
  rw [if_pos (by norm_num : (0 : ℝ) < 1)]
  rw [if_neg (show ¬((false : Bool) = true) from Bool.false_ne_true)]
  rw [gravAcc_cB_cA]
  rw [CheckCollision_accelerate, checkCollision_cB_cA]
  refine Object.ext rfl ?_ rfl rfl rfl rfl rfl rfl
  ext
  · show (cB.velocity.x + (⟨-(G / 10 ^ 6), 0, 0⟩ : Vec3).x / 96 * 1) * 1.0
      = -(G / 10 ^ 6 / 96)
    show ((0 : ℝ) + -(G / 10 ^ 6) / 96 * 1) * 1.0 = -(G / 10 ^ 6 / 96)
    ring
  · show (cB.velocity.y + (⟨-(G / 10 ^ 6), 0, 0⟩ : Vec3).y / 96 * 1) * 1.0 = 0
    show ((0 : ℝ) + 0 / 96 * 1) * 1.0 = 0
    norm_num
  · show (cB.velocity.z + (⟨-(G / 10 ^ 6), 0, 0⟩ : Vec3).z / 96 * 1) * 1.0 = 0
    show ((0 : ℝ) + 0 / 96 * 1) * 1.0 = 0
    norm_num

lemma UpdatePos_rest (o : Object) (s : ℝ) (fc : ℕ)
    (hv : o.velocity = ⟨0, 0, 0⟩) (hr : o.radius = radiusFormula o.mass o.density)
    (ht : o.hasTrail = false) :
    o.UpdatePos s fc = (o, fc) := by
  have hvx : o.velocity.x = 0 := by rw [hv]
  have hvy : o.velocity.y = 0 := by rw [hv]
  have hvz : o.velocity.z = 0 := by rw [hv]
  have ho2 : ({ o with
      position :=
        ⟨o.position.x + o.velocity.x / 94 * s,
         o.position.y + o.velocity.y / 94 * s,
         o.position.z + o.velocity.z / 94 * s⟩,
      radius := radiusFormula o.mass o.density } : Object) = o := by
    refine Object.ext ?_ rfl rfl rfl ?_ rfl rfl rfl
    · show (⟨o.position.x + o.velocity.x / 94 * s,
        o.position.y + o.velocity.y / 94 * s,
        o.position.z + o.velocity.z / 94 * s⟩ : Vec3) = o.position
      ext <;> simp [hvx, hvy, hvz]
    · exact hr.symm
  simp only [Object.UpdatePos]
  simp only [ho2]
  rw [if_neg (by rw [ht]; exact Bool.false_ne_true)]

lemma UpdatePos_cAv (fc : ℕ) :
    ({ cA with velocity := (⟨94, 0, 0⟩ : Vec3) } : Object).UpdatePos 1 fc
      = (cA1, fc) := by
  simp only [Object.UpdatePos]
  rw [if_neg (show ¬(({ cA with velocity := (⟨94, 0, 0⟩ : Vec3) } : Object).hasTrail
    = true) from Bool.false_ne_true)]
  have hpos : (⟨({ cA with velocity := (⟨94, 0, 0⟩ : Vec3) } : Object).position.x
      + ({ cA with velocity := (⟨94, 0, 0⟩ : Vec3) } : Object).velocity.x / 94 * 1,
      ({ cA with velocity := (⟨94, 0, 0⟩ : Vec3) } : Object).position.y
      + ({ cA with velocity := (⟨94, 0, 0⟩ : Vec3) } : Object).velocity.y / 94 * 1,
      ({ cA with velocity := (⟨94, 0, 0⟩ : Vec3) } : Object).position.z
      + ({ cA with velocity := (⟨94, 0, 0⟩ : Vec3) } : Object).velocity.z / 94 * 1⟩
      : Vec3) = cA1.position := by
    ext
    · show (0 : ℝ) + (94 : ℝ) / 94 * 1 = (1 : ℝ)
      norm_num
    · show (0 : ℝ) + (0 : ℝ) / 94 * 1 = (0 : ℝ)
      norm_num
    · show (0 : ℝ) + (0 : ℝ) / 94 * 1 = (0 : ℝ)
      norm_num
  have hobj : ({ ({ cA with velocity := (⟨94, 0, 0⟩ : Vec3) } : Object) with
      position := ⟨({ cA with velocity := (⟨94, 0, 0⟩ : Vec3) } : Object).position.x
        + ({ cA with velocity := (⟨94, 0, 0⟩ : Vec3) } : Object).velocity.x / 94 * 1,
        ({ cA with velocity := (⟨94, 0, 0⟩ : Vec3) } : Object).position.y
        + ({ cA with velocity := (⟨94, 0, 0⟩ : Vec3) } : Object).velocity.y / 94 * 1,
        ({ cA with velocity := (⟨94, 0, 0⟩ : Vec3) } : Object).position.z
        + ({ cA with velocity := (⟨94, 0, 0⟩ : Vec3) } : Object).velocity.z / 94 * 1⟩,
      radius := radiusFormula ({ cA with velocity := (⟨94, 0, 0⟩ : Vec3) } : Object).mass
        ({ cA with velocity := (⟨94, 0, 0⟩ : Vec3) } : Object).density } : Object)
      = cA1 :=
    Object.ext hpos rfl rfl rfl rfl rfl rfl rfl
  rw [hobj]

lemma UpdatePos_cBv (fc : ℕ) : cBv.UpdatePos 1 fc = (cB2, fc) := by
  simp only [Object.UpdatePos]
  rw [if_neg (show ¬(cBv.hasTrail = true) from Bool.false_ne_true)]
  have hpos : (⟨cBv.position.x + cBv.velocity.x / 94 * 1,
      cBv.position.y + cBv.velocity.y / 94 * 1,
      cBv.position.z + cBv.velocity.z / 94 * 1⟩ : Vec3) = cB2.position := by
    ext
    · show (1 : ℝ) + -(G / 10 ^ 6 / 96) / 94 * 1 = (1 : ℝ) - G / 10 ^ 6 / 96 / 94
      ring
    · show (0 : ℝ) + (0 : ℝ) / 94 * 1 = (0 : ℝ)
      norm_num
    · show (0 : ℝ) + (0 : ℝ) / 94 * 1 = (0 : ℝ)
      norm_num
  have hobj : ({ cBv with
      position := ⟨cBv.position.x + cBv.velocity.x / 94 * 1,
        cBv.position.y + cBv.velocity.y / 94 * 1,
        cBv.position.z + cBv.velocity.z / 94 * 1⟩,
      radius := radiusFormula cBv.mass cBv.density } : Object) = cB2 :=
    Object.ext hpos rfl rfl rfl rfl rfl rfl rfl
  rw [hobj]

lemma pairStep_cB_cA1 : pairStep false 1 cB cA1 = cB :=
  pairStep_of_eq_pos false 1 cB cA1 rfl

lemma tick_cAB_eval : tick false 1 [cA, cB] 0 = ([cA1, cB], 0) := by
  have t0 : tickStep false 1 ([cA, cB], 0) 0 = ([cA1, cB], 0) := by
    show (([cA, cB] : List Object).set 0 (bodyStep false 1 [cA, cB] 0 0).1,
      (bodyStep false 1 [cA, cB] 0 0).2) = _
    have hb : bodyStep false 1 [cA, cB] 0 0 = (cA1, 0) := by
      simp only [bodyStep, bodyForcePhase]
      rw [innerLoop_two_0, pairStep_cA_cB]
      rw [if_neg (show ¬(({ cA with velocity := (⟨94, 0, 0⟩ : Vec3) } : Object).Initalizing
        = true) from Bool.false_ne_true)]
      rw [if_neg (show ¬((false : Bool) = true) from Bool.false_ne_true)]
      exact UpdatePos_cAv 0
    rw [hb]
    rfl
  have t1 : tickStep false 1 ([cA1, cB], 0) 1 = ([cA1, cB], 0) := by
    show (([cA1, cB] : List Object).set 1 (bodyStep false 1 [cA1, cB] 1 0).1,
      (bodyStep false 1 [cA1, cB] 1 0).2) = _
    have hb : bodyStep false 1 [cA1, cB] 1 0 = (cB, 0) := by
      simp only [bodyStep, bodyForcePhase]
      rw [innerLoop_two_1, pairStep_cB_cA1]
      rw [if_neg (show ¬(cB.Initalizing = true) from Bool.false_ne_true)]
      rw [if_neg (show ¬((false : Bool) = true) from Bool.false_ne_true)]
      exact UpdatePos_rest cB 1 0 rfl rfl rfl
    rw [hb]
    rfl
  show (List.range ([cA, cB] : List Object).length).foldl (tickStep false 1)
    ([cA, cB], 0) = _
  rw [show ([cA, cB] : List Object).length = 2 from rfl]
  rw [show List.range 2 = [0, 1] by decide]
  simp only [List.foldl_cons, List.foldl_nil]
  rw [t0, t1]

lemma snapTick_cAB_eval : snapshotTick false 1 [cA, cB] 0 = ([cA1, cB2], 0) := by
  have hb0 : bodyForcePhase false 1 [cA, cB] 0
      = { cA with velocity := (⟨94, 0, 0⟩ : Vec3) } := by
    simp only [bodyForcePhase]
    rw [innerLoop_two_0, pairStep_cA_cB]
    rw [if_neg (show ¬(({ cA with velocity := (⟨94, 0, 0⟩ : Vec3) } : Object).Initalizing
      = true) from Bool.false_ne_true)]
  have hb1 : bodyForcePhase false 1 [cA, cB] 1 = cBv := by
    simp only [bodyForcePhase]
    rw [innerLoop_two_1, pairStep_cB_cA]
    rw [if_neg (show ¬(cBv.Initalizing = true) from Bool.false_ne_true)]
  simp only [snapshotTick]
  rw [if_neg (show ¬((false : Bool) = true) from Bool.false_ne_true)]
  rw [show ([cA, cB] : List Object).length = 2 from rfl]
  rw [show List.range 2 = [0, 1] by decide]
  simp only [List.map_cons, List.map_nil]
  rw [hb0, hb1]
  simp only [integrateAll]
  rw [UpdatePos_cAv]
  rw [UpdatePos_cBv]

/-! ### Claim C5 -/

lemma distSq_pos_of_ne (a b : Object) (h : a.position ≠ b.position) :
    0 < ((b.position.x - a.position.x) * (b.position.x - a.position.x) +
      (b.position.y - a.position.y) * (b.position.y - a.position.y) +
      (b.position.z - a.position.z) * (b.position.z - a.position.z)) := by
  by_contra hle
  push_neg at hle
  have q1 := mul_self_nonneg (b.position.x - a.position.x)
  have q2 := mul_self_nonneg (b.position.y - a.position.y)
  have q3 := mul_self_nonneg (b.position.z - a.position.z)
  have e1 : (b.position.x - a.position.x) * (b.position.x - a.position.x) = 0 :=
    le_antisymm (by linarith) q1
  have e2 : (b.position.y - a.position.y) * (b.position.y - a.position.y) = 0 :=
    le_antisymm (by linarith) q2
  have e3 : (b.position.z - a.position.z) * (b.position.z - a.position.z) = 0 :=
    le_antisymm (by linarith) q3
  exact h (Vec3.ext
    (by have := mul_self_eq_zero.mp e1; linarith)
    (by have := mul_self_eq_zero.mp e2; linarith)
    (by have := mul_self_eq_zero.mp e3; linarith))

/-- Claim C5 (amended): the pairwise acceleration formula satisfies
Newton's third law exactly when the accelerations of both members of a
pair are evaluated from the same positions: mA times the acceleration on
A equals minus mB times the acceleration on B, componentwise.  In an
actual tick the relation can fail, because the position of A is
integrated before the acceleration of B is computed (see the
counterexample). -/
theorem newton_third_law_pairwise (A B : Object) (hA : A.mass ≠ 0)
    (hB : B.mass ≠ 0) (hp : A.position ≠ B.position) :
    Vec3.scale A.mass (gravAccVec A B) = Vec3.scale (-B.mass) (gravAccVec B A) := by
  have hpos := distSq_pos_of_ne A B hp
  have hpos2 := distSq_pos_of_ne B A (Ne.symm hp)
  have hsum_eq : ((A.position.x - B.position.x) * (A.position.x - B.position.x) +
      (A.position.y - B.position.y) * (A.position.y - B.position.y) +
      (A.position.z - B.position.z) * (A.position.z - B.position.z))
      = ((B.position.x - A.position.x) * (B.position.x - A.position.x) +
      (B.position.y - A.position.y) * (B.position.y - A.position.y) +
      (B.position.z - A.position.z) * (B.position.z - A.position.z)) := by
    ring
  have hd : distS B A = distS A B := by
    unfold distS
    rw [hsum_eq]
  have hdpos : 0 < distS A B := Real.sqrt_pos.mpr hpos
  have hdne : distS A B ≠ 0 := ne_of_gt hdpos
  simp only [gravAccVec, hd]
  rw [if_pos hdpos]
  rw [if_pos hdpos]
  ext <;> simp only [Vec3.scale] <;> field_simp <;> ring

/-- Witness for the amended claim C5 at a concrete input. -/
theorem newton_third_law_pairwise_witness :
    cA.mass ≠ 0 ∧ cB.mass ≠ 0 ∧ cA.position ≠ cB.position ∧
    Vec3.scale cA.mass (gravAccVec cA cB)
      = Vec3.scale (-cB.mass) (gravAccVec cB cA) := by
  have h1 : cA.mass ≠ 0 := by
    show (1 : ℝ) ≠ 0
    norm_num
  have h2 : cB.mass ≠ 0 := cB_mass_ne
  have h3 : cA.position ≠ cB.position := by
    intro he
    have h0 : (0 : ℝ) = 1 := congrArg Vec3.x he
    exact absurd h0 (by norm_num)
  exact ⟨h1, h2, h3, newton_third_law_pairwise cA cB h1 h2 h3⟩

/-- Counterexample to claim C5 as stated: in the actual tick with bodies
cA and cB at separation 1, cA is accelerated and moved exactly onto cB
before the tick computes the force on cB, whose pair is then skipped by
the distance guard.  cB receives zero acceleration, so the claimed
magnitude relation mA times aA equals mB times aB fails by 94 velocity
units: far beyond any floating-point tolerance, and the directions are
not opposite (one side is the zero vector). -/
theorem newton_third_law_tick_cex :
    distS cA cB = 1 ∧
    cA.mass * |((tick false 1 [cA, cB] 0).1.getD 0 objDefault).velocity.x
      - cA.velocity.x|
    ≠ cB.mass * |((tick false 1 [cA, cB] 0).1.getD 1 objDefault).velocity.x
      - cB.velocity.x| := by
  refine ⟨distS_cA_cB, ?_⟩
  rw [tick_cAB_eval]
  show (1 : ℝ) * |(94 : ℝ) - 0| ≠ (9024 * 10 ^ 6 / G) * |(0 : ℝ) - 0|
  have e1 : |(94 : ℝ) - 0| = 94 := by
    rw [sub_zero]
    exact abs_of_nonneg (by norm_num)
  have e2 : |(0 : ℝ) - 0| = 0 := by norm_num
  rw [e1, e2]
  norm_num

/-! ### Claim C1 -/

lemma getD_set_ne {α : Type _} : ∀ (l : List α) (j i : ℕ) (v d : α), j ≠ i →
    (l.set j v).getD i d = l.getD i d := by
  intro l
  induction l with
  | nil => intro j i v d h; rfl
  | cons a t ih =>
    intro j i v d h
    cases j with
    | zero =>
      cases i with
      | zero => exact absurd rfl h
      | succ m => rfl
    | succ n =>
      cases i with
      | zero => rfl
      | succ m =>
        show (t.set n v).getD m d = t.getD m d
        exact ih n m v d (fun he => h (by rw [he]))

lemma foldl_tickStep_getD_zero (p : Bool) (s : ℝ) :
    ∀ (l : List ℕ) (st : List Object × ℕ), (∀ j ∈ l, j ≠ 0) →
      ((l.foldl (tickStep p s) st).1.getD 0 objDefault) = st.1.getD 0 objDefault := by
  intro l
  induction l with
  | nil => intro st h; rfl
  | cons j t ih =>
    intro st h
    simp only [List.foldl_cons]
    rw [ih _ (fun x hx => h x (List.mem_cons_of_mem j hx))]
    show ((st.1.set j (bodyStep p s st.1 j st.2).1).getD 0 objDefault)
      = st.1.getD 0 objDefault
    exact getD_set_ne st.1 j 0 _ objDefault (h j (List.mem_cons_self j t))

/-- Claim C1 (amended): the tick is sequential (apply-as-you-go): a
body's force computation observes the current state, in which bodies
processed earlier in the same tick have already been integrated, so in
general the tick does not equal the compute-then-apply reference (see
the counterexample).  What does hold: the first-processed body computes
its update from the intact start-of-tick snapshot, so its result always
equals the reference's. -/
theorem tick_first_body_snapshot :
    ∀ (pause : Bool) (speed : ℝ) (objs : List Object) (fc : ℕ),
      (tick pause speed objs fc).1.getD 0 objDefault
        = (snapshotTick pause speed objs fc).1.getD 0 objDefault := by
  intro pause speed objs fc
  cases objs with
  | nil => cases pause <;> rfl
  | cons a rest =>
    have hrange : List.range (a :: rest).length
        = 0 :: (List.range rest.length).map Nat.succ := by
      rw [List.length_cons, List.range_succ_eq_map]
    have hne : ∀ j ∈ (List.range rest.length).map Nat.succ, j ≠ 0 := by
      intro j hj
      rcases List.mem_map.mp hj with ⟨m, _, rfl⟩
      exact Nat.succ_ne_zero m
    have hseq : (tick pause speed (a :: rest) fc).1.getD 0 objDefault
        = (bodyStep pause speed (a :: rest) 0 fc).1 := by
      show ((List.range (a :: rest).length).foldl (tickStep pause speed)
        (a :: rest, fc)).1.getD 0 objDefault = _
      rw [hrange]
      simp only [List.foldl_cons]
      rw [foldl_tickStep_getD_zero pause speed _ _ hne]
      show (((a :: rest).set 0 (bodyStep pause speed (a :: rest) 0 fc).1).getD 0
        objDefault) = _
      rfl
    have hsnap : (snapshotTick pause speed (a :: rest) fc).1.getD 0 objDefault
        = (bodyStep pause speed (a :: rest) 0 fc).1 := by
      simp only [snapshotTick]
      rw [hrange]
      simp only [List.map_cons]
      cases pause with
      | true =>
        rw [if_pos rfl]
        show bodyForcePhase true speed (a :: rest) 0
          = (bodyStep true speed (a :: rest) 0 fc).1
        rw [bodyStep_paused]
      | false =>
        rw [if_neg Bool.false_ne_true]
        show (integrateAll speed (bodyForcePhase false speed (a :: rest) 0 ::
          (List.map Nat.succ (List.range rest.length)).map
            (bodyForcePhase false speed (a :: rest))) fc).1.getD 0 objDefault = _
        simp only [integrateAll]
        rfl
    rw [hseq, hsnap]

/-- Counterexample to claim C1 as stated: for the two-body state cA, cB
the sequential tick moves cA onto cB before computing the force on cB,
which is then skipped by the distance guard, leaving cB exactly at
x = 1; the compute-then-apply reference accelerates cB toward cA and
moves it off 1.  The tick result does not equal the reference. -/
theorem tick_snapshot_cex :
    ((tick false 1 [cA, cB] 0).1.getD 1 objDefault).position.x ≠
      ((snapshotTick false 1 [cA, cB] 0).1.getD 1 objDefault).position.x := by
  rw [tick_cAB_eval, snapTick_cAB_eval]
  show (1 : ℝ) ≠ 1 - G / 10 ^ 6 / 96 / 94
  norm_num [G]

/-! ### Claim C9 -/

lemma grow_iterate_mass (dt : ℝ) :
    ∀ (n : ℕ) (o : Object),
      ((growInitializingMass dt)^[n] o).mass = o.mass * (1 + 1 * dt) ^ n := by
  intro n
  induction n with
  | zero => intro o; simp
  | succ k ih =>
    intro o
    rw [Function.iterate_succ_apply']
    simp only [growInitializingMass]
    rw [ih o]
    ring

/-- Claim C9 (code bug): the Forming growth step multiplies the mass by
(1 + 1.0 * deltaTime) per frame, a 100 percent per second rate, although
the code comment and the spec say 1 percent per second.  Over 2 seconds in
20 frames of deltaTime = 0.1 the code yields M * (1.1)^20 > 6 M, while the
claimed value M * exp(ln(1.01) * 2) is below 2 M. -/
theorem mass_growth_rate_bug :
    ((growInitializingMass (1 / 10))^[20] (mkObject ⟨0, 0, 0⟩ ⟨0, 0, 0⟩ 1 1)).mass
      = (11 / 10 : ℝ) ^ 20 ∧
    (6 : ℝ) < (11 / 10 : ℝ) ^ 20 ∧
    Real.exp (Real.log 1.01 * 2) < 2 := by
  refine ⟨?_, by norm_num, ?_⟩
  · rw [grow_iterate_mass]
    show (1 : ℝ) * (1 + 1 * (1 / 10)) ^ 20 = _
    norm_num
  · have h2 : Real.log 1.01 * 2 = Real.log ((1.01 : ℝ) ^ (2 : ℕ)) := by
      rw [Real.log_pow]
      push_cast
      ring
    rw [h2, Real.exp_log (by positivity)]
    norm_num

/-! ### Claim C10 -/

lemma displacePass_aux (objs : List Object) :
    ∀ (n : ℕ) (xs : List ℝ), xs.length ≤ n →
      keepXZ (displacePass objs xs) = keepXZ xs ∧
      (displacePass objs xs).length = xs.length := by
  intro n
  induction n with
  | zero =>
    intro xs hlen
    have : xs = [] := List.length_eq_zero.mp (Nat.le_zero.mp hlen)
    subst this
    exact ⟨rfl, rfl⟩
  | succ k ih =>
    intro xs hlen
    match xs with
    | [] => exact ⟨rfl, rfl⟩
    | [x] => exact ⟨rfl, rfl⟩
    | [x, y] => exact ⟨rfl, rfl⟩
    | x :: y :: z :: rest =>
      have hrest : rest.length ≤ k := by
        simp only [List.length_cons] at hlen ⊢
        omega
      obtain ⟨ih1, ih2⟩ := ih rest hrest
      constructor
      · show keepXZ (x :: displaceVertexY objs x y z :: z :: displacePass objs rest)
            = keepXZ (x :: y :: z :: rest)
        show x :: z :: keepXZ (displacePass objs rest) = x :: z :: keepXZ rest
        rw [ih1]
      · show (x :: displaceVertexY objs x y z :: z :: displacePass objs rest).length
            = (x :: y :: z :: rest).length
        simp only [List.length_cons]
        omega

/-- Claim C10: the grid displacement pass writes only the y slot of each
vertex: the x and z slots of the output equal the undisplaced grid
values, for every body set, and the vertex array length is unchanged. -/
theorem displacement_only_y :
    ∀ (objs : List Object) (xs : List ℝ),
      keepXZ (displacePass objs xs) = keepXZ xs ∧
      (displacePass objs xs).length = xs.length := by
  intro objs xs
  exact displacePass_aux objs xs.length xs le_rfl

end
